import Mathlib

/-!
Verification of the mq-mcp tool-dispatch and query-evaluation pipeline
(`src/server.rs`).

The server exposes four tools: `html_to_markdown`, `extract_markdown`,
`available_functions` and `available_selectors`.  The external collaborators
(the `mq_markdown` document parser, the `mq_lang` query engine and the
`mq_hir` registry) are out of scope per the design: we embed them as
parameters of the pipeline, abstracted by their observable interfaces
(`from_html_str`, `eval`, the registry contents).  A runtime value of the
query engine is abstracted by the three observations the server makes of it:
`is_none`, `is_empty` and its textual rendering `to_string`.
-/

namespace MqMcp

/-- Abstraction of `mq_lang::RuntimeValue` by the observations the server
makes: the `is_none()` and `is_empty()` predicates and the `to_string()`
rendering. -/
structure RuntimeValue where
  is_none : Bool
  is_empty : Bool
  to_string : String
deriving DecidableEq, Repr

/-- `rmcp::model::Content`, of which the server only uses `Content::text`. -/
inductive Content where
  | text (t : String)
deriving DecidableEq, Repr

/-- `rmcp::model::CallToolResult` restricted to the fields the server
produces. -/
structure CallToolResult where
  content : List Content
  is_error : Option Bool
deriving DecidableEq, Repr

/-- `CallToolResult::success`: wraps content with `is_error = Some(false)`. -/
def CallToolResult.success (content : List Content) : CallToolResult :=
  CallToolResult.mk content (some false)

/-- `rmcp::ErrorData`: a JSON-RPC error code, a message, and optional string
data (the server always passes the underlying error rendered to a string). -/
structure ErrorData where
  code : Int
  message : String
  data : Option String
deriving DecidableEq, Repr

/-- `ErrorData::parse_error` (JSON-RPC code -32700). -/
def ErrorData.parse_error (message : String) (data : Option String) : ErrorData :=
  ErrorData.mk (-32700) message data

/-- `ErrorData::invalid_request` (JSON-RPC code -32600). -/
def ErrorData.invalid_request (message : String) (data : Option String) : ErrorData :=
  ErrorData.mk (-32600) message data

/-- The result projection shared by `html_to_markdown` and
`extract_markdown` (`server.rs` lines 86-95 and 125-134): each evaluated
value is dropped when `is_none() || is_empty()`, otherwise rendered by
`to_string()` into one `Content::text` unit, via `filter_map`. -/
def project (values : List RuntimeValue) : List Content :=
  values.filterMap fun value =>
    if value.is_none || value.is_empty then none
    else some (Content.text value.to_string)

/-- `Server::html_to_markdown` (`server.rs` lines 69-97), parametric in the
external adapters: `from_html_str` is `mq_markdown::Markdown::from_html_str`
returning the node sequence or a parse error rendered to a string;
`evalQuery` is a fresh default engine with builtins loaded, i.e.
`engine.eval`, with its error rendered to a string; `toRuntimeValue` is
`mq_lang::RuntimeValue::from` on nodes.  An absent query defaults to
`"identity()"`. -/
def html_to_markdown {Node : Type}
    (from_html_str : String → Except String (List Node))
    (evalQuery : String → List RuntimeValue → Except String (List RuntimeValue))
    (toRuntimeValue : Node → RuntimeValue)
    (html : String) (query : Option String) : Except ErrorData CallToolResult :=
  match from_html_str html with
  | Except.error e => Except.error (ErrorData.parse_error "Failed to parse html" (some e))
  | Except.ok nodes =>
    match evalQuery (query.getD "identity()") (nodes.map toRuntimeValue) with
    | Except.error e => Except.error (ErrorData.invalid_request "Failed to query" (some e))
    | Except.ok values => Except.ok (CallToolResult.success (project values))

/-- `Server::extract_markdown` (`server.rs` lines 102-136): same pipeline,
but the query is required and the markdown input is routed through the same
HTML-capable parser `from_html_str`; a parse failure carries
`"Failed to parse markdown"` instead. -/
def extract_markdown {Node : Type}
    (from_html_str : String → Except String (List Node))
    (evalQuery : String → List RuntimeValue → Except String (List RuntimeValue))
    (toRuntimeValue : Node → RuntimeValue)
    (markdown : String) (query : String) : Except ErrorData CallToolResult :=
  match from_html_str markdown with
  | Except.error e => Except.error (ErrorData.parse_error "Failed to parse markdown" (some e))
  | Except.ok nodes =>
    match evalQuery query (nodes.map toRuntimeValue) with
    | Except.error e => Except.error (ErrorData.invalid_request "Failed to query" (some e))
    | Except.ok values => Except.ok (CallToolResult.success (project values))

/-- Documentation entry of the `mq_hir` builtin registry: a description and
an ordered parameter-name list (already rendered to strings). -/
structure BuiltinDoc where
  description : String
  params : List String
deriving DecidableEq, Repr

/-- The `hir.builtin` registry: named built-in functions, internal functions
and selectors, each with their documentation, in registry order. -/
structure Builtin where
  functions : List (String × BuiltinDoc)
  internal_functions : List (String × BuiltinDoc)
  selectors : List (String × BuiltinDoc)
deriving DecidableEq, Repr

/-- `mq_hir::Hir`, restricted to the `builtin` registry the server reads. -/
structure Hir where
  builtin : Builtin
deriving DecidableEq, Repr

/-- `FunctionInfo` (`server.rs` lines 37-46). -/
structure FunctionInfo where
  name : String
  description : String
  params : List String
  is_builtin : Bool
deriving DecidableEq, Repr

/-- `SelectorInfo` (`server.rs` lines 49-56): like `FunctionInfo` but with
no built-in flag. -/
structure SelectorInfo where
  name : String
  description : String
  params : List String
deriving DecidableEq, Repr

/-- A small JSON value model for the serialized introspection payloads. -/
inductive Json where
  | str (s : String)
  | bool (b : Bool)
  | arr (xs : List Json)
  | obj (fields : List (String × Json))
deriving Repr

/-- Escape a string for JSON rendering (quotes and backslashes). -/
def escapeString (s : String) : String :=
  s.foldl
    (fun acc c =>
      if c = '"' then acc ++ "\\\""
      else if c = '\\' then acc ++ "\\\\"
      else acc.push c)
    ""

mutual

/-- Compact JSON rendering, mirroring `serde_json::to_string`. -/
def Json.render : Json → String
  | Json.str s => "\"" ++ escapeString s ++ "\""
  | Json.bool b => if b then "true" else "false"
  | Json.arr xs => "[" ++ Json.renderArr xs ++ "]"
  | Json.obj fs => "\x7b" ++ Json.renderObj fs ++ "\x7d"

/-- Render a JSON array body, comma separated. -/
def Json.renderArr : List Json → String
  | [] => ""
  | [x] => Json.render x
  | x :: y :: xs => Json.render x ++ "," ++ Json.renderArr (y :: xs)

/-- Render a JSON object body, comma separated. -/
def Json.renderObj : List (String × Json) → String
  | [] => ""
  | [kv] => "\"" ++ escapeString kv.1 ++ "\":" ++ Json.render kv.2
  | kv :: kv2 :: fs =>
    "\"" ++ escapeString kv.1 ++ "\":" ++ Json.render kv.2 ++ "," ++ Json.renderObj (kv2 :: fs)

end

/-- Serialization of a `FunctionInfo`, fields in declaration order. -/
def FunctionInfo.toJson (f : FunctionInfo) : Json :=
  Json.obj
    [("name", Json.str f.name),
     ("description", Json.str f.description),
     ("params", Json.arr (f.params.map Json.str)),
     ("is_builtin", Json.bool f.is_builtin)]

/-- Serialization of a `SelectorInfo`, fields in declaration order. -/
def SelectorInfo.toJson (s : SelectorInfo) : Json :=
  Json.obj
    [("name", Json.str s.name),
     ("description", Json.str s.description),
     ("params", Json.arr (s.params.map Json.str))]

/-- The fixed example query strings of `available_functions`
(`server.rs` lines 165-169). -/
def functionExamples : List String :=
  ["select(or(.[], .code, .h)) | upcase() | add(\" Hello World\")",
   "select(not(.code))",
   ".code(\"js\")"]

/-- The function listing built by `available_functions` (`server.rs` lines
141-161): built-in functions followed by internal functions, both with
`is_builtin = true`. -/
def functionInfos (hir : Hir) : List FunctionInfo :=
  hir.builtin.functions.map
    (fun p => FunctionInfo.mk p.1 p.2.description p.2.params true)
  ++ hir.builtin.internal_functions.map
    (fun p => FunctionInfo.mk p.1 p.2.description p.2.params true)

/-- The `serde_json::json!` document of `available_functions`
(`server.rs` lines 163-170). -/
def functionsOutput (hir : Hir) : Json :=
  Json.obj
    [("functions", Json.arr ((functionInfos hir).map FunctionInfo.toJson)),
     ("examples", Json.arr (functionExamples.map Json.str))]

/-- `Server::available_functions` (`server.rs` lines 139-174): reads a fresh
default registry and returns one text content unit holding the serialized
listing.  Serialization of the static registry cannot fail, so the
`expect` never fires and the result is always a success. -/
def available_functions (hir : Hir) : Except ErrorData CallToolResult :=
  Except.ok (CallToolResult.success [Content.text (Json.render (functionsOutput hir))])

/-- The selector listing built by `available_selectors` (`server.rs` lines
182-188). -/
def selectorInfos (hir : Hir) : List SelectorInfo :=
  hir.builtin.selectors.map
    (fun p => SelectorInfo.mk p.1 p.2.description p.2.params)

/-- The `serde_json::json!` document of `available_selectors`
(`server.rs` lines 190-192). -/
def selectorsOutput (hir : Hir) : Json :=
  Json.obj
    [("selectors", Json.arr ((selectorInfos hir).map SelectorInfo.toJson))]

/-- `Server::available_selectors` (`server.rs` lines 177-196). -/
def available_selectors (hir : Hir) : Except ErrorData CallToolResult :=
  Except.ok (CallToolResult.success [Content.text (Json.render (selectorsOutput hir))])

/-- The server value (`server.rs` lines 11-14): its only state is the tool
router, which no tool reads or mutates; we record it as an opaque token. -/
structure Server where
  tool_router : Unit
deriving DecidableEq, Repr

/-- The `html_to_markdown` tool as a method on the server state: the body
ignores `&self` entirely. -/
def Server.html_to_markdown {Node : Type} (_self : Server)
    (from_html_str : String → Except String (List Node))
    (evalQuery : String → List RuntimeValue → Except String (List RuntimeValue))
    (toRuntimeValue : Node → RuntimeValue)
    (html : String) (query : Option String) : Except ErrorData CallToolResult :=
  MqMcp.html_to_markdown from_html_str evalQuery toRuntimeValue html query

/-- The `extract_markdown` tool as a method on the server state. -/
def Server.extract_markdown {Node : Type} (_self : Server)
    (from_html_str : String → Except String (List Node))
    (evalQuery : String → List RuntimeValue → Except String (List RuntimeValue))
    (toRuntimeValue : Node → RuntimeValue)
    (markdown : String) (query : String) : Except ErrorData CallToolResult :=
  MqMcp.extract_markdown from_html_str evalQuery toRuntimeValue markdown query

/-- The `available_functions` tool as a method on the server state. -/
def Server.available_functions (_self : Server) (hir : Hir) :
    Except ErrorData CallToolResult :=
  MqMcp.available_functions hir

/-- The `available_selectors` tool as a method on the server state. -/
def Server.available_selectors (_self : Server) (hir : Hir) :
    Except ErrorData CallToolResult :=
  MqMcp.available_selectors hir

/-- Field lookup in a JSON object, for stating properties of the serialized
introspection documents. -/
def lookupField (key : String) : Json → Option Json
  | Json.obj fs => fs.lookup key
  | _ => none

/-- Re-reading of an emitted content unit as a trivially non-empty,
non-none result value (for the projection idempotence law). -/
def contentToValue : Content → RuntimeValue
  | Content.text t => RuntimeValue.mk false false t

/-- A value survives projection exactly when both predicates are false. -/
def survives (v : RuntimeValue) : Bool :=
  !v.is_none && !v.is_empty

/-- Concrete parser adapter used in witnesses: every input yields the empty
node sequence (as the real parser does on the empty document). -/
def parseAllEmpty : String → Except String (List Unit) :=
  fun _ => Except.ok []

/-- Concrete evaluator adapter used in witnesses: rejects every query (as
the real engine does on malformed query text). -/
def evalAlwaysFails : String → List RuntimeValue → Except String (List RuntimeValue) :=
  fun _ _ => Except.error "boom"

/-- Concrete evaluator adapter used in witnesses: every query matches
nothing (as the real engine does for a selector on an empty document). -/
def evalNoMatch : String → List RuntimeValue → Except String (List RuntimeValue) :=
  fun _ _ => Except.ok []

/-- Concrete node-to-value conversion used in witnesses. -/
def toValueUnit : Unit → RuntimeValue :=
  fun _ => RuntimeValue.mk false false ""

/-- Unfolding of `project` on a cons cell. -/
theorem project_cons (v : RuntimeValue) (vs : List RuntimeValue) :
    project (v :: vs)
      = if v.is_none || v.is_empty then project vs
        else Content.text v.to_string :: project vs := by
  by_cases h : (v.is_none || v.is_empty) = true
  · simp only [project, List.filterMap_cons, if_pos h]
  · simp only [project, List.filterMap_cons, if_neg h]

/-- Helper for projection idempotence: projecting the re-read of any
content sequence is the identity, since every re-read value has both
predicates false. -/
theorem project_contentToValue (cs : List Content) :
    project (cs.map contentToValue) = cs := by
  induction cs with
  | nil => rfl
  | cons c cs ih =>
    cases c with
    | text t =>
      rw [List.map_cons, project_cons]
      simp [contentToValue, ih]

/-- Claim C1: the projection of a result-value sequence keeps exactly the
values for which both `is_none` and `is_empty` are false, renders each
surviving value by `to_string` into one content unit, and preserves the
relative order of the input (the surviving values form a sublist of the
input); `project` is a total function. -/
theorem project_filter_map_order (values : List RuntimeValue) :
    project values
      = (values.filter survives).map (fun v => Content.text v.to_string)
    ∧ List.Sublist (values.filter survives) values := by
  refine ⟨?_, List.filter_sublist values⟩
  induction values with
  | nil => rfl
  | cons v vs ih =>
    have hs : survives v = !(v.is_none || v.is_empty) := by
      unfold survives; cases v.is_none <;> cases v.is_empty <;> rfl
    rw [project_cons, List.filter_cons, hs]
    cases h : (v.is_none || v.is_empty) with
    | true => simpa using ih
    | false => simp [ih]

/-- Claim C2: calling `html_to_markdown` with no query is the same call as
with the explicit `"identity()"` query, for every parser, evaluator, node
conversion and HTML input — same content units or the same error. -/
theorem html_to_markdown_none_eq_identity {Node : Type}
    (from_html_str : String → Except String (List Node))
    (evalQuery : String → List RuntimeValue → Except String (List RuntimeValue))
    (toRuntimeValue : Node → RuntimeValue) (html : String) :
    html_to_markdown from_html_str evalQuery toRuntimeValue html none
      = html_to_markdown from_html_str evalQuery toRuntimeValue html
          (some "identity()") := rfl

/-- Claim C9: projection is idempotent — re-projecting an already projected
sequence, reading each emitted content unit back as a result value that is
neither none nor empty, returns the sequence unchanged. -/
theorem project_idempotent (values : List RuntimeValue) :
    project ((project values).map contentToValue) = project values :=
  project_contentToValue (project values)

/-- Claim C3: each operation returns a success or exactly one error (the
result type admits no partial result alongside an error); it is a
`ParseError` carrying the parser's message exactly when the document parser
fails on the input, and — once parsing succeeded — a `QueryError` carrying
the evaluator's message exactly when evaluation fails. -/
theorem error_taxonomy {Node : Type}
    (P : String → Except String (List Node))
    (E : String → List RuntimeValue → Except String (List RuntimeValue))
    (f : Node → RuntimeValue) (t : String) (q : Option String) (q' : String)
    (m : String) :
    (html_to_markdown P E f t q
        = Except.error (ErrorData.parse_error "Failed to parse html" (some m))
      ↔ P t = Except.error m)
  ∧ (extract_markdown P E f t q'
        = Except.error (ErrorData.parse_error "Failed to parse markdown" (some m))
      ↔ P t = Except.error m)
  ∧ (∀ nodes, P t = Except.ok nodes →
      ((html_to_markdown P E f t q
          = Except.error (ErrorData.invalid_request "Failed to query" (some m))
        ↔ E (q.getD "identity()") (nodes.map f) = Except.error m)
      ∧ (extract_markdown P E f t q'
          = Except.error (ErrorData.invalid_request "Failed to query" (some m))
        ↔ E q' (nodes.map f) = Except.error m)))
  ∧ (∀ r e, html_to_markdown P E f t q = Except.ok r
      → html_to_markdown P E f t q ≠ Except.error e) := by
  refine ⟨?_, ?_, ?_, ?_⟩
  · cases hP : P t with
    | error e =>
      simp [html_to_markdown, hP, ErrorData.parse_error]
    | ok nodes =>
      cases hE : E (q.getD "identity()") (nodes.map f) with
      | error e =>
        simp [html_to_markdown, hP, hE, ErrorData.parse_error,
          ErrorData.invalid_request]
      | ok vals => simp [html_to_markdown, hP, hE]
  · cases hP : P t with
    | error e =>
      simp [extract_markdown, hP, ErrorData.parse_error]
    | ok nodes =>
      cases hE : E q' (nodes.map f) with
      | error e =>
        simp [extract_markdown, hP, hE, ErrorData.parse_error,
          ErrorData.invalid_request]
      | ok vals => simp [extract_markdown, hP, hE]
  · intro nodes hn
    constructor
    · cases hE : E (q.getD "identity()") (nodes.map f) with
      | error e =>
        simp [html_to_markdown, hn, hE, ErrorData.invalid_request]
      | ok vals => simp [html_to_markdown, hn, hE]
    · cases hE : E q' (nodes.map f) with
      | error e =>
        simp [extract_markdown, hn, hE, ErrorData.invalid_request]
      | ok vals => simp [extract_markdown, hn, hE]
  · intro r e hok herr
    rw [hok] at herr
    exact Except.noConfusion herr

/-- Witness for the claim C3 theorem: with a parser that yields the empty
node sequence and an evaluator that always fails, the query-error
characterization produces the query error at concrete inputs. -/
theorem error_taxonomy_witness :
    html_to_markdown parseAllEmpty evalAlwaysFails toValueUnit "x" none
      = Except.error (ErrorData.invalid_request "Failed to query" (some "boom")) :=
  (((error_taxonomy parseAllEmpty evalAlwaysFails toValueUnit "x" none "q"
      "boom").2.2.1 [] rfl).1).mpr rfl

/-- Claim C4: whenever parsing succeeds, `extract_markdown t q` is the very
same computation as `html_to_markdown t (some q)` — the same content units
on success, and the same query error when evaluation fails. -/
theorem extract_markdown_refines_html {Node : Type}
    (P : String → Except String (List Node))
    (E : String → List RuntimeValue → Except String (List RuntimeValue))
    (f : Node → RuntimeValue) (t q : String) (nodes : List Node)
    (hp : P t = Except.ok nodes) :
    extract_markdown P E f t q = html_to_markdown P E f t (some q) := by
  unfold extract_markdown html_to_markdown
  rw [hp]
  rfl

/-- Witness for the claim C4 theorem at concrete inputs. -/
theorem extract_markdown_refines_html_witness :
    extract_markdown parseAllEmpty evalNoMatch toValueUnit "doc" ".h1"
      = html_to_markdown parseAllEmpty evalNoMatch toValueUnit "doc"
          (some ".h1") :=
  extract_markdown_refines_html parseAllEmpty evalNoMatch toValueUnit
    "doc" ".h1" [] rfl

/-- Claim C5: for a query the evaluator rejects on every input sequence
(e.g. malformed query text such as `"not_a_function("`), neither
`html_to_markdown` nor `extract_markdown` ever succeeds, and whenever the
document itself parses, both return the invalid-request error whose message
is exactly `"Failed to query"`. -/
theorem malformed_query_never_succeeds {Node : Type}
    (P : String → Except String (List Node))
    (E : String → List RuntimeValue → Except String (List RuntimeValue))
    (f : Node → RuntimeValue) (t q : String)
    (hq : ∀ vs, ∃ e, E q vs = Except.error e) :
    (∀ r, html_to_markdown P E f t (some q) ≠ Except.ok r)
  ∧ (∀ r, extract_markdown P E f t q ≠ Except.ok r)
  ∧ (∀ nodes, P t = Except.ok nodes →
      (∃ e, html_to_markdown P E f t (some q)
          = Except.error (ErrorData.invalid_request "Failed to query" (some e)))
    ∧ (∃ e, extract_markdown P E f t q
          = Except.error (ErrorData.invalid_request "Failed to query" (some e)))) := by
  cases hP : P t with
  | error e =>
    refine ⟨?_, ?_, ?_⟩
    · intro r h
      simp [html_to_markdown, hP] at h
    · intro r h
      simp [extract_markdown, hP] at h
    · intro nodes hn
      exact Except.noConfusion hn
  | ok nodes =>
    obtain ⟨e, he⟩ := hq (nodes.map f)
    refine ⟨?_, ?_, ?_⟩
    · intro r h
      simp [html_to_markdown, hP, he] at h
    · intro r h
      simp [extract_markdown, hP, he] at h
    · intro nodes' hn'
      injection hn' with hnn
      subst hnn
      exact ⟨⟨e, by simp [html_to_markdown, hP, he]⟩,
             ⟨e, by simp [extract_markdown, hP, he]⟩⟩

/-- Witness for the claim C5 theorem at the spec's concrete scenario
inputs, with an evaluator rejecting every query. -/
theorem malformed_query_never_succeeds_witness :
    ∃ e, html_to_markdown parseAllEmpty evalAlwaysFails toValueUnit
        "<h1>Test Heading</h1>" (some "not_a_function(")
      = Except.error (ErrorData.invalid_request "Failed to query" (some e)) :=
  ((malformed_query_never_succeeds parseAllEmpty evalAlwaysFails toValueUnit
      "<h1>Test Heading</h1>" "not_a_function("
      (fun _ => ⟨"boom", rfl⟩)).2.2 [] rfl).1

/-- Claim C6: `available_functions` always succeeds with exactly one
content unit, the rendering of a document whose `"functions"` field lists
the built-in functions followed by the internal functions — every entry
flagged `is_builtin = true`, names in registry order — and whose
`"examples"` field holds the 3 fixed example strings. -/
theorem available_functions_spec (hir : Hir) :
    available_functions hir
      = Except.ok (CallToolResult.success
          [Content.text (Json.render (functionsOutput hir))])
  ∧ lookupField "functions" (functionsOutput hir)
      = some (Json.arr ((functionInfos hir).map FunctionInfo.toJson))
  ∧ lookupField "examples" (functionsOutput hir)
      = some (Json.arr (functionExamples.map Json.str))
  ∧ (functionInfos hir).map FunctionInfo.name
      = hir.builtin.functions.map Prod.fst
        ++ hir.builtin.internal_functions.map Prod.fst
  ∧ (functionInfos hir).all (fun fi => fi.is_builtin) = true
  ∧ functionExamples.length = 3 := by
  refine ⟨rfl, rfl, rfl, ?_, ?_, rfl⟩
  · simp only [functionInfos, List.map_append, List.map_map]
    rfl
  · simp [functionInfos, List.all_append, List.all_map, Function.comp]
    constructor <;> (intro x n d _ hx; subst hx; rfl)

/-- Claim C7: a query that matches nothing is a success with zero content
units, not an error — whenever the parser yields a node sequence and the
evaluator returns the empty value sequence, `extract_markdown` returns a
success carrying the empty content list. -/
theorem empty_match_success {Node : Type}
    (P : String → Except String (List Node))
    (E : String → List RuntimeValue → Except String (List RuntimeValue))
    (f : Node → RuntimeValue) (t q : String) (nodes : List Node)
    (hp : P t = Except.ok nodes)
    (he : E q (nodes.map f) = Except.ok []) :
    extract_markdown P E f t q = Except.ok (CallToolResult.success []) := by
  simp [extract_markdown, hp, he, project]

/-- Witness for the claim C7 theorem at the spec's concrete scenario: the
empty document with the `.h1` selector succeeds with no content units. -/
theorem empty_match_success_witness :
    extract_markdown parseAllEmpty evalNoMatch toValueUnit "" ".h1"
      = Except.ok (CallToolResult.success []) :=
  empty_match_success parseAllEmpty evalNoMatch toValueUnit "" ".h1" [] rfl rfl

/-- Claim C8: the four tools are deterministic and stateless — no result
depends on the server value (the only state, the tool router, is never read
or written), two calls with the same arguments agree, and the two
introspection tools always succeed with the same listing on every call. -/
theorem tools_stateless_deterministic {Node : Type}
    (P : String → Except String (List Node))
    (E : String → List RuntimeValue → Except String (List RuntimeValue))
    (f : Node → RuntimeValue)
    (s s' : Server) (h : String) (q : Option String) (t q' : String)
    (hir : Hir) :
    s.html_to_markdown P E f h q = s'.html_to_markdown P E f h q
  ∧ s.extract_markdown P E f t q' = s'.extract_markdown P E f t q'
  ∧ s.available_functions hir = s'.available_functions hir
  ∧ s.available_selectors hir = s'.available_selectors hir
  ∧ s.available_functions hir
      = Except.ok (CallToolResult.success
          [Content.text (Json.render (functionsOutput hir))])
  ∧ s.available_selectors hir
      = Except.ok (CallToolResult.success
          [Content.text (Json.render (selectorsOutput hir))]) :=
  ⟨rfl, rfl, rfl, rfl, rfl, rfl⟩

/-- Claim C10: the `"examples"` field of the `available_functions` document
is the fixed three-element list of literal query strings, in order,
independent of the registry contents. -/
theorem function_examples_fixed (hir hir' : Hir) :
    functionExamples
      = ["select(or(.[], .code, .h)) | upcase() | add(\" Hello World\")",
         "select(not(.code))",
         ".code(\"js\")"]
  ∧ lookupField "examples" (functionsOutput hir)
      = some (Json.arr (functionExamples.map Json.str))
  ∧ lookupField "examples" (functionsOutput hir)
      = lookupField "examples" (functionsOutput hir') :=
  ⟨rfl, rfl, rfl⟩

end MqMcp
